import Mathlib

/-!
Verification of the Myriad alarm controller.

Two variants of an Arduino sketch are embedded shallowly:
* `Simple`  — `src/arduino/main/main.ino`: a 250 ms blinker driving LED and
  buzzer from the same boolean.
* `Advanced` — `src/unnamed/part_000`: a 100 ms LED blinker plus a 4-state
  buzzer tone sequencer (BEEP, PAUSE1, BOO, PAUSE2) gated at 300 ms with an
  extra 200 ms silence adjustment, and a green idle-indicator LED.

Arduino `unsigned long` timestamps are modelled as `Nat` reduced modulo
`2 ^ 32`; the elapsed-time check `currentMillis - previousMillis >= interval`
is modelled by `usub`, 32-bit wraparound subtraction.  One iteration of
`loop()` becomes a pure function from an optional serial byte (`Option Char`,
`none` when `Serial.available()` is false), the current `millis()` reading,
and the global state, to the new global state.  Output latches
(`digitalWrite` levels, the `tone`/`noTone` status of the buzzer) are carried
in the state so that claims about outputs are statable.
-/

namespace Myriad

/-- Modulus of the 32-bit `unsigned long` millisecond clock. -/
def M : Nat := 4294967296

/-- 32-bit unsigned subtraction `a - b`, the arithmetic performed by
`currentMillis - previousMillis` on `unsigned long` values. -/
def usub (a b : Nat) : Nat := (a % M + M - b % M) % M

namespace Simple

/-- `const int blinkInterval = 250;` from `main.ino`. -/
def blinkInterval : Nat := 250

/-- Global state of `main.ino`: the three globals plus the two output
latches written by `digitalWrite`. -/
structure State where
  isActive : Bool
  previousMillis : Nat
  state : Bool
  ledPin : Bool
  buzzerPin : Bool
deriving DecidableEq

/-- State after `setup()`: globals at their initialisers, outputs low. -/
def init : State :=
  { isActive := false, previousMillis := 0, state := false,
    ledPin := false, buzzerPin := false }

/-- The `if (Serial.available()) { char cmd = Serial.read(); ... }` block of
`main.ino`'s `loop()`. -/
def serialStep (cmd : Option Char) (s : State) : State :=
  match cmd with
  | none => s
  | some c =>
    if c = '1' then { s with isActive := true }
    else if c = '0' then
      { s with isActive := false, ledPin := false, buzzerPin := false }
    else s

/-- One iteration of `main.ino`'s `loop()`. -/
def loop (cmd : Option Char) (currentMillis : Nat) (s : State) : State :=
  let s := serialStep cmd s
  if s.isActive then
    if blinkInterval ≤ usub currentMillis s.previousMillis then
      let st := !s.state
      { s with previousMillis := currentMillis % M, state := st,
               ledPin := st, buzzerPin := st }
    else s
  else s

end Simple

namespace Advanced

/-- `const unsigned long ledInterval = 100;` from `part_000`. -/
def ledInterval : Nat := 100

/-- `const unsigned long buzzerInterval = 300;` from `part_000`. -/
def buzzerInterval : Nat := 300

/-- `const unsigned long buzzerSilence = 200;` from `part_000`. -/
def buzzerSilence : Nat := 200

/-- `enum ToneState { BEEP, PAUSE1, BOO, PAUSE2 };` -/
inductive ToneState where
  | BEEP
  | PAUSE1
  | BOO
  | PAUSE2
deriving DecidableEq

open ToneState

/-- Global state of `part_000`: the five globals plus the output latches
(LED pin, green idle-indicator pin, and the buzzer tone status: `none` after
`noTone`, `some f` after `tone(pin, f)`). -/
structure State where
  isActive : Bool
  previousLedMillis : Nat
  ledState : Bool
  previousBuzzerMillis : Nat
  toneState : ToneState
  ledPin : Bool
  greenPin : Bool
  buzzer : Option Nat
deriving DecidableEq

/-- State after `setup()` of `part_000`: globals at their initialisers,
green LED driven high, other outputs quiescent. -/
def init : State :=
  { isActive := false, previousLedMillis := 0, ledState := false,
    previousBuzzerMillis := 0, toneState := PAUSE2,
    ledPin := false, greenPin := true, buzzer := none }

/-- The `if (Serial.available()) { ... }` block of `part_000`'s `loop()`. -/
def serialStep (cmd : Option Char) (s : State) : State :=
  match cmd with
  | none => s
  | some c =>
    if c = '1' then { s with isActive := true }
    else if c = '0' then
      { s with isActive := false, ledPin := false, buzzer := none }
    else s

/-- The `// Blink main LED every 100ms` block of `part_000`'s `loop()`. -/
def ledStep (currentMillis : Nat) (s : State) : State :=
  if ledInterval ≤ usub currentMillis s.previousLedMillis then
    let ns := !s.ledState
    { s with previousLedMillis := currentMillis % M, ledState := ns,
             ledPin := ns }
  else s

/-- The `// Handle buzzer tone switching` block of `part_000`'s `loop()`:
`previousBuzzerMillis = currentMillis` on firing, then the `switch` on
`toneState`, where the PAUSE cases additionally do
`previousBuzzerMillis += buzzerSilence` (32-bit wrapping addition). -/
def buzzerStep (currentMillis : Nat) (s : State) : State :=
  if buzzerInterval ≤ usub currentMillis s.previousBuzzerMillis then
    match s.toneState with
    | PAUSE1 =>
      { s with buzzer := none, toneState := BOO,
               previousBuzzerMillis := (currentMillis % M + buzzerSilence) % M }
    | PAUSE2 =>
      { s with buzzer := none, toneState := BEEP,
               previousBuzzerMillis := (currentMillis % M + buzzerSilence) % M }
    | BEEP =>
      { s with buzzer := some 1000, toneState := PAUSE1,
               previousBuzzerMillis := currentMillis % M }
    | BOO =>
      { s with buzzer := some 600, toneState := PAUSE2,
               previousBuzzerMillis := currentMillis % M }
  else s

/-- One iteration of `part_000`'s `loop()`: serial handling, one `millis()`
read, then, when active, green LED low, LED blink block and buzzer block;
when idle, green LED high. -/
def loop (cmd : Option Char) (currentMillis : Nat) (s : State) : State :=
  let s := serialStep cmd s
  if s.isActive then
    buzzerStep currentMillis (ledStep currentMillis { s with greenPin := false })
  else
    { s with greenPin := true }

/-- Successor function of the claimed tone cycle
BEEP → PAUSE1 → BOO → PAUSE2 → BEEP. -/
def nextTone : ToneState → ToneState
  | BEEP => PAUSE1
  | PAUSE1 => BOO
  | BOO => PAUSE2
  | PAUSE2 => BEEP

end Advanced

namespace Simple

theorem serialStep_skip (s : State) : serialStep none s = s := rfl

end Simple

namespace Advanced

theorem serialStep_none (s : State) : serialStep none s = s := rfl

theorem serialStep_phase_fields (cmd : Option Char) (s : State) :
    (serialStep cmd s).toneState = s.toneState ∧
    (serialStep cmd s).previousBuzzerMillis = s.previousBuzzerMillis ∧
    (serialStep cmd s).ledState = s.ledState ∧
    (serialStep cmd s).previousLedMillis = s.previousLedMillis := by
  cases cmd with
  | none => simp [serialStep]
  | some c =>
    simp only [serialStep]
    split
    · simp
    · split <;> simp

theorem ledStep_tone_fields (t : Nat) (s : State) :
    (ledStep t s).toneState = s.toneState ∧
    (ledStep t s).previousBuzzerMillis = s.previousBuzzerMillis ∧
    (ledStep t s).buzzer = s.buzzer ∧
    (ledStep t s).isActive = s.isActive ∧
    (ledStep t s).greenPin = s.greenPin := by
  unfold ledStep
  split <;> simp

theorem ledStep_still (t : Nat) (s : State)
    (h : usub t s.previousLedMillis < ledInterval) :
    ledStep t s = s := by
  unfold ledStep
  rw [if_neg (by omega)]

theorem ledStep_fire (t : Nat) (s : State)
    (h : ledInterval ≤ usub t s.previousLedMillis) :
    ledStep t s = { s with previousLedMillis := t % M,
                           ledState := !s.ledState, ledPin := !s.ledState } := by
  unfold ledStep
  rw [if_pos h]

theorem buzzerStep_led_fields (t : Nat) (s : State) :
    (buzzerStep t s).ledState = s.ledState ∧
    (buzzerStep t s).previousLedMillis = s.previousLedMillis ∧
    (buzzerStep t s).ledPin = s.ledPin ∧
    (buzzerStep t s).isActive = s.isActive ∧
    (buzzerStep t s).greenPin = s.greenPin := by
  unfold buzzerStep
  split
  · cases h : s.toneState <;> simp
  · simp

theorem buzzerStep_fire (t : Nat) (s : State)
    (h : buzzerInterval ≤ usub t s.previousBuzzerMillis) :
    buzzerStep t s = match s.toneState with
      | ToneState.PAUSE1 =>
        { s with buzzer := none, toneState := ToneState.BOO,
                 previousBuzzerMillis := (t % M + buzzerSilence) % M }
      | ToneState.PAUSE2 =>
        { s with buzzer := none, toneState := ToneState.BEEP,
                 previousBuzzerMillis := (t % M + buzzerSilence) % M }
      | ToneState.BEEP =>
        { s with buzzer := some 1000, toneState := ToneState.PAUSE1,
                 previousBuzzerMillis := t % M }
      | ToneState.BOO =>
        { s with buzzer := some 600, toneState := ToneState.PAUSE2,
                 previousBuzzerMillis := t % M } := by
  unfold buzzerStep
  rw [if_pos h]

theorem buzzerStep_still (t : Nat) (s : State)
    (h : usub t s.previousBuzzerMillis < buzzerInterval) :
    buzzerStep t s = s := by
  unfold buzzerStep
  rw [if_neg (by omega)]

theorem loop_none_active (t : Nat) (s : State) (hA : s.isActive = true) :
    loop none t s = buzzerStep t (ledStep t { s with greenPin := false }) := by
  unfold loop serialStep
  simp [hA]

end Advanced

/-- C1: receiving byte '0' sets the active flag false and, within the same
loop iteration, unconditionally forces the LED output low and the buzzer
silent, from every state (hence after every prior input sequence) and
regardless of phase, in both variants. -/
theorem C1_zero_forces_quiescent (s : Advanced.State) (s2 : Simple.State)
    (t t2 : Nat) :
    (Advanced.loop (some '0') t s).isActive = false ∧
    (Advanced.loop (some '0') t s).ledPin = false ∧
    (Advanced.loop (some '0') t s).buzzer = none ∧
    (Simple.loop (some '0') t2 s2).isActive = false ∧
    (Simple.loop (some '0') t2 s2).ledPin = false ∧
    (Simple.loop (some '0') t2 s2).buzzerPin = false := by
  simp [Advanced.loop, Advanced.serialStep, Simple.loop, Simple.serialStep]

/-- C2 counterexample: the claim says that in state BEEP the buzzer emits
1000 Hz, and that after activation at t=0 the sequencer enters BEEP at
t=300 ms and is then emitting 1000 Hz.  On the code, the run '1'@0 then
poll@300 does enter BEEP at t=300, but the firing PAUSE2 branch executes
`noTone`, so in state BEEP the buzzer is silent, not emitting 1000 Hz. -/
theorem C2_beep_silent_counterexample :
    (Advanced.loop none 300 (Advanced.loop (some '1') 0 Advanced.init)).toneState
      = Advanced.ToneState.BEEP ∧
    (Advanced.loop none 300 (Advanced.loop (some '1') 0 Advanced.init)).buzzer
      = none := by
  decide

/-- C2 amended: the tone–state association is shifted by one transition:
the 1000 Hz tone is started by the elapsed-gate firing in state BEEP (which
moves to PAUSE1), the 600 Hz tone by the firing in state BOO (moving to
PAUSE2), and the firings in PAUSE1/PAUSE2 silence the buzzer (moving to
BOO/BEEP); so while active the buzzer sounds during the PAUSE states and is
silent during BEEP and BOO.  After activation at t=0 the sequencer enters
BEEP at t=300 ms with the buzzer silenced; the 1000 Hz tone starts at the
next poll (shown at t=301 ms). -/
theorem C2_tone_transitions (s : Advanced.State) (t : Nat)
    (hA : s.isActive = true)
    (hB : Advanced.buzzerInterval ≤ usub t s.previousBuzzerMillis) :
    (s.toneState = Advanced.ToneState.BEEP →
      (Advanced.loop none t s).buzzer = some 1000 ∧
      (Advanced.loop none t s).toneState = Advanced.ToneState.PAUSE1) ∧
    (s.toneState = Advanced.ToneState.BOO →
      (Advanced.loop none t s).buzzer = some 600 ∧
      (Advanced.loop none t s).toneState = Advanced.ToneState.PAUSE2) ∧
    ((s.toneState = Advanced.ToneState.PAUSE1 ∨
      s.toneState = Advanced.ToneState.PAUSE2) →
      (Advanced.loop none t s).buzzer = none) ∧
    ((Advanced.loop none 300 (Advanced.loop (some '1') 0 Advanced.init)).toneState
        = Advanced.ToneState.BEEP ∧
     (Advanced.loop none 300 (Advanced.loop (some '1') 0 Advanced.init)).buzzer
        = none ∧
     (Advanced.loop none 301 (Advanced.loop none 300
        (Advanced.loop (some '1') 0 Advanced.init))).buzzer = some 1000) := by
  rw [Advanced.loop_none_active t s hA]
  have hts := Advanced.ledStep_tone_fields t { s with greenPin := false }
  have hfire : Advanced.buzzerInterval ≤
      usub t (Advanced.ledStep t { s with greenPin := false }).previousBuzzerMillis := by
    rw [hts.2.1]
    exact hB
  rw [Advanced.buzzerStep_fire t _ hfire]
  rw [hts.1]
  refine ⟨?_, ?_, ?_, by decide⟩
  · intro h
    rw [h]
    simp
  · intro h
    rw [h]
    simp
  · rintro (h | h) <;> rw [h]

/-- C2 witness: the general part of `C2_tone_transitions` applied at the
state reached right after activation (toneState = PAUSE2) and poll time
300 ms: the firing silences the buzzer. -/
theorem C2_tone_transitions_witness :
    (Advanced.loop none 300 { Advanced.init with isActive := true }).buzzer
      = none :=
  (C2_tone_transitions { Advanced.init with isActive := true } 300 rfl
      (by decide)).2.2.1 (Or.inr rfl)

/-- C3 counterexample: the claim says BEEP is held for exactly the base
interval (300 ms) and each PAUSE state for 500 ms.  On the code, after
'1'@0 and poll@300 the sequencer enters BEEP with
`previousBuzzerMillis = 500` (200 ms in the future); at the very next poll
(t=301) the 32-bit difference 301 − 500 underflows to 2^32 − 199 ≥ 300, so
BEEP is exited after 1 ms, not 300 ms; PAUSE1, entered at t=301 with
timestamp 301, is then exited at t=601 — held 300 ms, not 500 ms. -/
theorem C3_hold_times_counterexample :
    (Advanced.loop none 300 (Advanced.loop (some '1') 0 Advanced.init)).toneState
      = Advanced.ToneState.BEEP ∧
    (Advanced.loop none 300 (Advanced.loop (some '1') 0 Advanced.init)).previousBuzzerMillis
      = 500 ∧
    (Advanced.loop none 301 (Advanced.loop none 300
        (Advanced.loop (some '1') 0 Advanced.init))).toneState
      = Advanced.ToneState.PAUSE1 ∧
    (Advanced.loop none 301 (Advanced.loop none 300
        (Advanced.loop (some '1') 0 Advanced.init))).previousBuzzerMillis
      = 301 ∧
    (Advanced.loop none 601 (Advanced.loop none 301 (Advanced.loop none 300
        (Advanced.loop (some '1') 0 Advanced.init)))).toneState
      = Advanced.ToneState.BOO := by
  decide

/-- C3 amended: while active, no tone transition fires while the 32-bit
elapsed difference is below the base interval, and each PAUSE state is held
for exactly the base interval (300 ms), its exit setting the timestamp to
the current time.  The BEEP and BOO states are not held for the base
interval: entering them sets the last-change timestamp 200 ms ahead of the
current time, so at every poll during the following 200 ms the unsigned
difference underflows past the threshold and the exit fires immediately;
no state is held for 500 ms under millisecond-rate polling. -/
theorem C3_hold_times (s : Advanced.State) (t u : Nat)
    (hA : s.isActive = true) :
    (usub t s.previousBuzzerMillis < Advanced.buzzerInterval →
      (Advanced.loop none t s).toneState = s.toneState ∧
      (Advanced.loop none t s).previousBuzzerMillis = s.previousBuzzerMillis) ∧
    (Advanced.buzzerInterval ≤ usub t s.previousBuzzerMillis →
      ((s.toneState = Advanced.ToneState.PAUSE1 ∨
        s.toneState = Advanced.ToneState.PAUSE2) →
        (Advanced.loop none t s).previousBuzzerMillis
          = (t % M + Advanced.buzzerSilence) % M) ∧
      ((s.toneState = Advanced.ToneState.BEEP ∨
        s.toneState = Advanced.ToneState.BOO) →
        (Advanced.loop none t s).previousBuzzerMillis = t % M)) ∧
    (s.previousBuzzerMillis = (t % M + Advanced.buzzerSilence) % M →
      t + Advanced.buzzerSilence < M → t ≤ u → u < t + Advanced.buzzerSilence →
      Advanced.buzzerInterval ≤ usub u s.previousBuzzerMillis ∧
      (Advanced.loop none u s).toneState = Advanced.nextTone s.toneState) := by
  have hts := Advanced.ledStep_tone_fields t { s with greenPin := false }
  refine ⟨?_, ?_, ?_⟩
  · intro h
    rw [Advanced.loop_none_active t s hA]
    rw [Advanced.buzzerStep_still t _ (by rw [hts.2.1]; exact h)]
    exact ⟨hts.1, hts.2.1⟩
  · intro h
    rw [Advanced.loop_none_active t s hA]
    rw [Advanced.buzzerStep_fire t _ (by rw [hts.2.1]; exact h)]
    rw [hts.1]
    constructor
    · rintro (hc | hc) <;> rw [hc]
    · rintro (hc | hc) <;> rw [hc]
  · intro hp hlt htu hu
    have hfire : Advanced.buzzerInterval ≤ usub u s.previousBuzzerMillis := by
      rw [hp]
      unfold usub M Advanced.buzzerSilence Advanced.buzzerInterval at *
      omega
    have htu2 := Advanced.ledStep_tone_fields u { s with greenPin := false }
    refine ⟨hfire, ?_⟩
    rw [Advanced.loop_none_active u s hA]
    rw [Advanced.buzzerStep_fire u _ (by rw [htu2.2.1]; exact hfire)]
    rw [htu2.1]
    cases s.toneState <;> simp [Advanced.nextTone]

/-- C3 witness: `C3_hold_times` applied at the state just after entering
BEEP (timestamp 500 = 300 + 200) with poll times t = 300, u = 301: the
elapsed check underflows and BEEP is exited immediately. -/
theorem C3_hold_times_witness :
    Advanced.buzzerInterval ≤ usub 301
      (Advanced.loop none 300
        (Advanced.loop (some '1') 0 Advanced.init)).previousBuzzerMillis ∧
    (Advanced.loop none 301 (Advanced.loop none 300
        (Advanced.loop (some '1') 0 Advanced.init))).toneState
      = Advanced.nextTone
          (Advanced.loop none 300
            (Advanced.loop (some '1') 0 Advanced.init)).toneState :=
  (C3_hold_times
      (Advanced.loop none 300 (Advanced.loop (some '1') 0 Advanced.init))
      300 301 (by decide)).2.2 (by decide) (by decide) (by decide) (by decide)

/-- C4: while active (no byte arriving), the LED phase variable is
unchanged — and no output or timestamp changes — at any poll with 32-bit
elapsed time below the interval (100 ms elaborate, 250 ms simple), and at a
poll with elapsed time at least the interval it flips exactly once, the new
phase is written to the LED output in the same iteration, and the last-flip
timestamp is set to the current time. -/
theorem C4_led_flip (s : Advanced.State) (s2 : Simple.State) (t : Nat) :
    (s.isActive = true →
      (usub t s.previousLedMillis < Advanced.ledInterval →
        (Advanced.loop none t s).ledState = s.ledState ∧
        (Advanced.loop none t s).ledPin = s.ledPin ∧
        (Advanced.loop none t s).previousLedMillis = s.previousLedMillis) ∧
      (Advanced.ledInterval ≤ usub t s.previousLedMillis →
        (Advanced.loop none t s).ledState = !s.ledState ∧
        (Advanced.loop none t s).ledPin = !s.ledState ∧
        (Advanced.loop none t s).previousLedMillis = t % M)) ∧
    (s2.isActive = true →
      (usub t s2.previousMillis < Simple.blinkInterval →
        (Simple.loop none t s2).state = s2.state ∧
        (Simple.loop none t s2).ledPin = s2.ledPin ∧
        (Simple.loop none t s2).previousMillis = s2.previousMillis) ∧
      (Simple.blinkInterval ≤ usub t s2.previousMillis →
        (Simple.loop none t s2).state = !s2.state ∧
        (Simple.loop none t s2).ledPin = !s2.state ∧
        (Simple.loop none t s2).previousMillis = t % M)) := by
  constructor
  · intro hA
    rw [Advanced.loop_none_active t s hA]
    constructor
    · intro h
      rw [Advanced.ledStep_still t { s with greenPin := false } (by exact h)]
      have hb := Advanced.buzzerStep_led_fields t { s with greenPin := false }
      exact ⟨hb.1, hb.2.2.1, hb.2.1⟩
    · intro h
      rw [Advanced.ledStep_fire t { s with greenPin := false } (by exact h)]
      have hb := Advanced.buzzerStep_led_fields t
        { s with greenPin := false, previousLedMillis := t % M,
                 ledState := !s.ledState, ledPin := !s.ledState }
      exact ⟨hb.1, hb.2.2.1, hb.2.1⟩
  · intro hA
    constructor
    · intro h
      simp only [Simple.loop, Simple.serialStep_skip, hA, if_true]
      rw [if_neg (by omega)]
      exact ⟨rfl, rfl, rfl⟩
    · intro h
      simp only [Simple.loop, Simple.serialStep_skip, hA, if_true]
      rw [if_pos h]
      exact ⟨rfl, rfl, rfl⟩

/-- C4 witness: `C4_led_flip` at the activated initial states of the two
variants with poll time t = 300: both LEDs flip on (phase false → true) and
both timestamps advance to 300. -/
theorem C4_led_flip_witness :
    (Advanced.loop none 300 { Advanced.init with isActive := true }).ledState
        = !({ Advanced.init with isActive := true }).ledState ∧
    (Simple.loop none 300 { Simple.init with isActive := true }).state
        = !({ Simple.init with isActive := true }).state :=
  ⟨(((C4_led_flip { Advanced.init with isActive := true }
        { Simple.init with isActive := true } 300).1 rfl).2 (by decide)).1,
   (((C4_led_flip { Advanced.init with isActive := true }
        { Simple.init with isActive := true } 300).2 rfl).2 (by decide)).1⟩

/-- C5: the tone sequencer starts in PAUSE2 (the spec's PAUSE_AFTER_BOO),
and every loop iteration either leaves the tone state unchanged or moves it
to the next state of the cycle BEEP → PAUSE1 → BOO → PAUSE2 → BEEP; while
active, a poll whose 32-bit elapsed time reaches the 300 ms gate always
moves it to the next state of the cycle — from each state the only possible
successor is the next one, and the cycle has no terminal state. -/
theorem C5_tone_cycle :
    Advanced.init.toneState = Advanced.ToneState.PAUSE2 ∧
    (∀ (cmd : Option Char) (t : Nat) (s : Advanced.State),
      (Advanced.loop cmd t s).toneState = s.toneState ∨
      (Advanced.loop cmd t s).toneState = Advanced.nextTone s.toneState) ∧
    (∀ (t : Nat) (s : Advanced.State), s.isActive = true →
      Advanced.buzzerInterval ≤ usub t s.previousBuzzerMillis →
      (Advanced.loop none t s).toneState = Advanced.nextTone s.toneState) := by
  refine ⟨rfl, ?_, ?_⟩
  · intro cmd t s
    simp only [Advanced.loop]
    have hs := Advanced.serialStep_phase_fields cmd s
    split
    · have hl := Advanced.ledStep_tone_fields t
        { Advanced.serialStep cmd s with greenPin := false }
      unfold Advanced.buzzerStep
      split
      · cases hc : (Advanced.ledStep t
            { Advanced.serialStep cmd s with greenPin := false }).toneState <;>
          rw [hl.1, hs.1] at hc <;> simp [hc, Advanced.nextTone]
      · rw [hl.1, hs.1]
        left
        rfl
    · left
      exact hs.1
  · intro t s hA hB
    rw [Advanced.loop_none_active t s hA]
    have hl := Advanced.ledStep_tone_fields t { s with greenPin := false }
    rw [Advanced.buzzerStep_fire t _ (by rw [hl.2.1]; exact hB)]
    rw [hl.1]
    cases s.toneState <;> simp [Advanced.nextTone]

/-- C5 witness: the fire clause of `C5_tone_cycle` at the activated initial
state (toneState = PAUSE2) and t = 300: the successor is
nextTone PAUSE2 = BEEP. -/
theorem C5_tone_cycle_witness :
    (Advanced.loop none 300 { Advanced.init with isActive := true }).toneState
      = Advanced.nextTone ({ Advanced.init with isActive := true }).toneState :=
  C5_tone_cycle.2.2 300 { Advanced.init with isActive := true } rfl (by decide)

/-- C6: the elapsed-time check of both variants computes
(current − last) with 32-bit unsigned subtraction (`usub`, the model of the
`unsigned long` subtraction in `loop()`) and compares it against the fixed
threshold; when the current timestamp is the last timestamp plus a true
elapsed time d < 2^32, each reduced modulo 2^32 as `millis()` values are,
the subtraction recovers exactly d — so the gate fires iff the threshold is
truly reached, also across clock wraparound. -/
theorem C6_elapsed_wraparound (last d thr : Nat) (h : d < M) :
    usub ((last + d) % M) (last % M) = d ∧
    (thr ≤ usub ((last + d) % M) (last % M) ↔ thr ≤ d) := by
  have he : usub ((last + d) % M) (last % M) = d := by
    unfold usub M at *
    omega
  exact ⟨he, by rw [he]⟩

/-- C6 witness: a wrapping instance: last = 2^32 − 150, d = 500; the raw
timestamps wrap past zero yet the unsigned difference is exactly 500 and
the 300 ms gate correctly fires. -/
theorem C6_elapsed_wraparound_witness :
    500 < M ∧
    (usub ((4294967146 + 500) % M) (4294967146 % M) = 500 ∧
     (300 ≤ usub ((4294967146 + 500) % M) (4294967146 % M) ↔ 300 ≤ 500)) :=
  ⟨by decide, C6_elapsed_wraparound 4294967146 500 300 (by decide)⟩

/-- C7: deactivation by '0' leaves the tone-sequencer state, the LED phase
variable and both last-event timestamps untouched (only outputs are forced
quiescent); while inactive a poll changes nothing except driving the green
idle LED high; and because the timers are not reset, the pattern resumes
from the retained state and the first flip after re-activation can come
sooner than a full interval: in the run '1'@0, poll@100 (flip,
timestamp 100), '0'@150, '1'@160, the timestamp is still 100 at
re-activation and the next flip lands at poll@200 — 40 ms after
re-activation, sooner than the 100 ms interval. -/
theorem C7_deactivation_frame (s : Advanced.State) (t : Nat) :
    ((Advanced.loop (some '0') t s).toneState = s.toneState ∧
     (Advanced.loop (some '0') t s).ledState = s.ledState ∧
     (Advanced.loop (some '0') t s).previousLedMillis = s.previousLedMillis ∧
     (Advanced.loop (some '0') t s).previousBuzzerMillis
       = s.previousBuzzerMillis) ∧
    (s.isActive = false →
      Advanced.loop none t s = { s with greenPin := true }) ∧
    ((Advanced.loop (some '1') 160 (Advanced.loop (some '0') 150
        (Advanced.loop none 100
          (Advanced.loop (some '1') 0 Advanced.init)))).previousLedMillis
        = 100 ∧
     (Advanced.loop (some '1') 160 (Advanced.loop (some '0') 150
        (Advanced.loop none 100
          (Advanced.loop (some '1') 0 Advanced.init)))).isActive = true ∧
     (Advanced.loop none 200 (Advanced.loop (some '1') 160
        (Advanced.loop (some '0') 150 (Advanced.loop none 100
          (Advanced.loop (some '1') 0 Advanced.init))))).previousLedMillis
        = 200) := by
  refine ⟨?_, ?_, by decide⟩
  · simp [Advanced.loop, Advanced.serialStep]
  · intro hI
    simp [Advanced.loop, Advanced.serialStep_none, hI]

/-- C7 witness: the inactive-poll clause of `C7_deactivation_frame` at the
initial state and t = 123: the poll only re-drives the green LED. -/
theorem C7_deactivation_frame_witness :
    Advanced.loop none 123 Advanced.init
      = { Advanced.init with greenPin := true } :=
  (C7_deactivation_frame Advanced.init 123).2.1 rfl

/-- C8: a byte other than '0' and '1' is ignored: the serial block returns
the state unchanged, and a whole loop iteration carrying such a byte equals
the iteration with no byte available, in both variants. -/
theorem C8_other_bytes_ignored (b : Char) (s : Advanced.State)
    (s2 : Simple.State) (t : Nat) (h1 : b ≠ '1') (h0 : b ≠ '0') :
    Advanced.serialStep (some b) s = s ∧
    Advanced.loop (some b) t s = Advanced.loop none t s ∧
    Simple.serialStep (some b) s2 = s2 ∧
    Simple.loop (some b) t s2 = Simple.loop none t s2 := by
  have ha : Advanced.serialStep (some b) s = s := by
    simp only [Advanced.serialStep]
    rw [if_neg h1, if_neg h0]
  have hs : Simple.serialStep (some b) s2 = s2 := by
    simp only [Simple.serialStep]
    rw [if_neg h1, if_neg h0]
  refine ⟨ha, ?_, hs, ?_⟩
  · simp only [Advanced.loop, ha, Advanced.serialStep_none]
  · simp only [Simple.loop, hs, Simple.serialStep_skip]

/-- C8 witness: `C8_other_bytes_ignored` at byte 'x' on the initial states
with t = 0. -/
theorem C8_other_bytes_ignored_witness :
    Advanced.serialStep (some 'x') Advanced.init = Advanced.init ∧
    Advanced.loop (some 'x') 0 Advanced.init
      = Advanced.loop none 0 Advanced.init ∧
    Simple.serialStep (some 'x') Simple.init = Simple.init ∧
    Simple.loop (some 'x') 0 Simple.init = Simple.loop none 0 Simple.init :=
  C8_other_bytes_ignored 'x' Advanced.init Simple.init 0 (by decide) (by decide)

/-- C9: receiving '1' while already active is idempotent: the serial block
returns the state unchanged, and a whole loop iteration carrying '1' equals
the iteration with no byte available — no phase variable, timer or output
is affected by the byte — in both variants. -/
theorem C9_one_idempotent (s : Advanced.State) (s2 : Simple.State) (t : Nat)
    (hA : s.isActive = true) (hA2 : s2.isActive = true) :
    Advanced.serialStep (some '1') s = s ∧
    Advanced.loop (some '1') t s = Advanced.loop none t s ∧
    Simple.serialStep (some '1') s2 = s2 ∧
    Simple.loop (some '1') t s2 = Simple.loop none t s2 := by
  have ha : Advanced.serialStep (some '1') s = s := by
    obtain ⟨a, pl, ls, pb, ts, lp, gp, bz⟩ := s
    simp_all [Advanced.serialStep]
  have hs : Simple.serialStep (some '1') s2 = s2 := by
    obtain ⟨a, pm, st, lp, bp⟩ := s2
    simp_all [Simple.serialStep]
  refine ⟨ha, ?_, hs, ?_⟩
  · simp only [Advanced.loop, ha, Advanced.serialStep_none]
  · simp only [Simple.loop, hs, Simple.serialStep_skip]

/-- C9 witness: `C9_one_idempotent` at the activated initial states with
t = 7. -/
theorem C9_one_idempotent_witness :
    Advanced.serialStep (some '1') { Advanced.init with isActive := true }
      = { Advanced.init with isActive := true } ∧
    Advanced.loop (some '1') 7 { Advanced.init with isActive := true }
      = Advanced.loop none 7 { Advanced.init with isActive := true } ∧
    Simple.serialStep (some '1') { Simple.init with isActive := true }
      = { Simple.init with isActive := true } ∧
    Simple.loop (some '1') 7 { Simple.init with isActive := true }
      = Simple.loop none 7 { Simple.init with isActive := true } :=
  C9_one_idempotent { Advanced.init with isActive := true }
    { Simple.init with isActive := true } 7 rfl rfl

/-- C10: '0' forces the LED output low while leaving the stored phase
variable untouched, so the variable can disagree with the output while
inactive; and if the phase variable was true, a re-activating '1' whose
iteration reaches the elapsed gate flips it to false and writes LOW again —
the first flip after re-activation produces no visible turn-on — in both
variants. -/
theorem C10_stale_phase_no_turn_on (s : Advanced.State) (s2 : Simple.State)
    (t : Nat) :
    ((Advanced.loop (some '0') t s).ledState = s.ledState ∧
     (Advanced.loop (some '0') t s).ledPin = false) ∧
    (s.ledState = true → Advanced.ledInterval ≤ usub t s.previousLedMillis →
      (Advanced.loop (some '1') t s).ledState = false ∧
      (Advanced.loop (some '1') t s).ledPin = false) ∧
    ((Simple.loop (some '0') t s2).state = s2.state ∧
     (Simple.loop (some '0') t s2).ledPin = false) ∧
    (s2.state = true → Simple.blinkInterval ≤ usub t s2.previousMillis →
      (Simple.loop (some '1') t s2).state = false ∧
      (Simple.loop (some '1') t s2).ledPin = false) := by
  refine ⟨?_, ?_, ?_, ?_⟩
  · simp [Advanced.loop, Advanced.serialStep]
  · intro hL h
    simp [Advanced.loop, Advanced.serialStep, Advanced.ledStep, h, hL,
          Advanced.buzzerStep_led_fields]
  · simp [Simple.loop, Simple.serialStep]
  · intro hL h
    simp [Simple.loop, Simple.serialStep, h, hL]

/-- C10 witness: `C10_stale_phase_no_turn_on` with the phase variables set
true in both variants at t = 300: the re-activating flip writes phase false
and output low. -/
theorem C10_stale_phase_no_turn_on_witness :
    (Advanced.loop (some '1') 300
        { Advanced.init with ledState := true }).ledState = false ∧
    (Advanced.loop (some '1') 300
        { Advanced.init with ledState := true }).ledPin = false ∧
    (Simple.loop (some '1') 300
        { Simple.init with state := true }).state = false ∧
    (Simple.loop (some '1') 300
        { Simple.init with state := true }).ledPin = false := by
  have h := C10_stale_phase_no_turn_on { Advanced.init with ledState := true }
    { Simple.init with state := true } 300
  exact ⟨(h.2.1 rfl (by decide)).1, (h.2.1 rfl (by decide)).2,
         (h.2.2.2 rfl (by decide)).1, (h.2.2.2 rfl (by decide)).2⟩

end Myriad
